import Mathlib

/-!
Shallow embedding of the authentication / authorization / rate-limiting
core of the school-management backend (the "Core" of the spec): the token
codec (src/utils/jwt.js), the OTP manager (src/unnamed/part_002), the
rate limiter and file-upload rate limiter (src/middleware/rateLimiter.js),
the auth middleware (src/middleware/auth.js, first variant) and the two
parent-child validators (src/middleware/parentChildValidator.js and
src/unnamed/part_013).

Modelling conventions:
- Redis and the relational store are modelled as explicit state values
  threaded through each operation; every model function is pure and
  executable.
- `Math.random()` is modelled as a rational input in [0, 1); SHA-256 and
  HMAC digests are modelled symbolically (the HMAC tag records the secret,
  algorithm and payload it was computed over, which is the standard
  symbolic model of an unforgeable MAC; the request-fingerprint digest is
  an arbitrary function parameter).
- Failures of the cache and of the credential store are injected through
  boolean flags on the respective state values, mirroring the thrown /
  caught exceptions of the source.
-/

namespace Backend

/-- JS truthiness of an optional string field: `undefined` and the empty
string are falsy, every other string is truthy. -/
def jsTruthyStr : Option String → Bool
  | none => false
  | some s => s ≠ ""

/-- JS truthiness of an optional boolean property (an absent property
reads as `undefined`, which is falsy). -/
def jsTruthyBool : Option Bool → Bool
  | none => false
  | some b => b

/-- `Math.ceil(a / b)` on nonnegative integers. -/
def jsCeilDiv (a b : Nat) : Nat := (a + b - 1) / b

/-! ## Token codec — src/utils/jwt.js

`jsonwebtoken` is modelled symbolically: a signed token carries its header
algorithm, its payload and a MAC tag; the tag records the secret, the
algorithm and the payload it was computed over. `jwt.verify` recomputes
the tag with the configured secret and compares. The payloads this
repository signs are `{ userId, orgId }` (src/routes/auth.js lines
158-161 and 349-352); the `exp` field exists in the payload type because
`jwt.verify` checks it when present, but no caller of `generateToken`
ever sets it and `jwt.sign` is called without `expiresIn`. -/

inductive Alg where
  | HS256
  | otherAlg
deriving DecidableEq

structure Payload where
  userId : String
  orgId : Option String
  exp : Option Nat
deriving DecidableEq

structure MacTag where
  secret : String
  alg : Alg
  payload : Payload
deriving DecidableEq

structure SignedToken where
  alg : Alg
  payload : Payload
  tag : MacTag
deriving DecidableEq

/-- A wire-level input to `jwt.verify`: either a structurally valid token
or an arbitrary string that does not parse as a token. -/
inductive JwtInput where
  | malformed (raw : String)
  | tok (t : SignedToken)
deriving DecidableEq

inductive JwtError where
  | notWellFormed
  | badSignature
  | algMismatch
  | expired
deriving DecidableEq

/-- Symbolic HMAC: the tag is the triple it signs over. -/
def hmacSign (secret : String) (alg : Alg) (p : Payload) : MacTag :=
  ⟨secret, alg, p⟩

/-- `generateToken` (src/utils/jwt.js lines 3-7): sign the payload with
HS256 under the process-wide secret; no `expiresIn` option is passed. -/
def generateToken (jwtSecret : String) (payload : Payload) : JwtInput :=
  .tok ⟨Alg.HS256, payload, hmacSign jwtSecret Alg.HS256 payload⟩

/-- `verifyToken` (src/utils/jwt.js lines 9-13): `jwt.verify` with the
allowed-algorithms list `["HS256"]`. Rejects malformed input, algorithm
confusion, a bad signature, and an expired `exp` claim when one is
present; `now` is the ambient clock. A thrown `JsonWebTokenError` is
modelled as an `Except.error`. -/
def verifyToken (jwtSecret : String) (now : Nat) : JwtInput → Except JwtError Payload
  | .malformed _ => .error .notWellFormed
  | .tok t =>
    if t.alg ≠ Alg.HS256 then .error .algMismatch
    else if t.tag ≠ hmacSign jwtSecret t.alg t.payload then .error .badSignature
    else
      match t.payload.exp with
      | some e => if e ≤ now then .error .expired else .ok t.payload
      | none => .ok t.payload

/-- The payload every login route of this repository signs
(src/routes/auth.js lines 158-161 and 349-352): `{ userId, orgId }`,
with no expiry claim. -/
def issuedPayload (userId orgId : String) : Payload :=
  ⟨userId, some orgId, none⟩

/-! ## OTP manager — src/unnamed/part_002

The two Redis keys `otp:{phone}` and `otp_attempts:{phone}` are modelled
as two phone-indexed maps; a stored entry records the value together with
the TTL passed to `redis.set(..., { ex })`. -/

structure OtpStore where
  otp : String → Option (String × Nat)
  attempts : String → Option (Nat × Nat)

def emptyOtpStore : OtpStore := ⟨fun _ => none, fun _ => none⟩

/-- `generateOTP` (part_002 lines 3-5):
`Math.floor(100000 + Math.random() * 900000)`, with `Math.random()`
modelled as a rational `r` with `0 ≤ r < 1`. -/
def generateOTPNum (r : ℚ) : Nat :=
  100000 + (Int.floor (r * 900000)).toNat

/-- JS `Number.prototype.toString` on a natural number: the usual decimal
rendering, with no padding (so no leading zeros for positive numbers). -/
def jsNatToString (n : Nat) : String :=
  if n = 0 then "0" else ⟨((Nat.digits 10 n).map Nat.digitChar).reverse⟩

/-- `generateOTP` returns the decimal rendering of the drawn number. -/
def generateOTP (r : ℚ) : String := jsNatToString (generateOTPNum r)

/-- `storeOTP` (part_002 lines 7-16): write the code under the
phone-scoped key with `{ ex: 100 }` and reset the attempts counter to 0
with the same TTL. -/
def storeOTP (phoneNumber otpVal : String) (st : OtpStore) : OtpStore :=
  { otp := fun p => if p = phoneNumber then some (otpVal, 100) else st.otp p
    attempts := fun p => if p = phoneNumber then some (0, 100) else st.attempts p }

/-- `deleteOTP` (part_002 lines 74-79), also the inline cleanup used by
`verifyOTP`: delete both keys for the phone. -/
def deleteOTP (phoneNumber : String) (st : OtpStore) : OtpStore :=
  { otp := fun p => if p = phoneNumber then none else st.otp p
    attempts := fun p => if p = phoneNumber then none else st.attempts p }

inductive OtpResult where
  /-- `{ success: false, error: "OTP expired or not found" }` -/
  | notFound
  /-- `{ success: false, error: "OTP invalidated due to too many wrong attempts" }` -/
  | exhausted
  /-- `{ success: false, error: "Invalid OTP. N attempt(s) remaining" }` -/
  | mismatch (remaining : Nat)
  /-- `{ success: true }` -/
  | ok
deriving DecidableEq

/-- `verifyOTP` (part_002 lines 18-72). The attempts counter is read with
`(await redis.get(attemptsKey)) || 0` then `parseInt`, so an absent
counter reads as 0. -/
def verifyOTP (phoneNumber inputOTP : String) (st : OtpStore) : OtpResult × OtpStore :=
  match st.otp phoneNumber with
  | none => (.notFound, st)
  | some (storedOTP, _) =>
    let attempts := ((st.attempts phoneNumber).map Prod.fst).getD 0
    if attempts ≥ 3 then
      (.exhausted, deleteOTP phoneNumber st)
    else if storedOTP ≠ inputOTP then
      let attempts2 := attempts + 1
      let st2 : OtpStore :=
        { otp := st.otp
          attempts := fun p => if p = phoneNumber then some (attempts2, 100) else st.attempts p }
      let remainingAttempts := 3 - attempts2
      if remainingAttempts = 0 then
        (.exhausted, deleteOTP phoneNumber st2)
      else
        (.mismatch remainingAttempts, st2)
    else
      (.ok, deleteOTP phoneNumber st)

/-! ## Rate limiter — src/middleware/rateLimiter.js (first module)

A bucket identifier such as `user:{userId}` is represented structurally
as a class/value pair; it renders on the wire as `cls ++ ":" ++ value`.
Since the class prefix and the appended window numeral contain no colon,
the rendered Redis key `rate_limit:{identifier}:{window}` is injective in
the (identifier, window) pair, so the model keys its counter maps by that
pair directly. The SHA-256 request fingerprint is modelled as an
arbitrary digest function `fp` (its 12-character truncation is kept from
the source). -/

structure Identifier where
  cls : String
  value : String
deriving DecidableEq

structure RlBody where
  phoneNumber : Option String
  username : Option String
deriving DecidableEq

structure RlReq where
  /-- the bearer token of the Authorization header, `none` when the
  header or its second word is absent -/
  authToken : Option JwtInput
  /-- `req.body` may be `undefined` -/
  body : Option RlBody
  ip : String
  userAgent : Option String
  acceptLanguage : Option String
  acceptEncoding : Option String

/-- The anonymous-device identifier (rateLimiter.js lines 39-52):
`device:{ip}-{sha256(ip|ua|lang|enc).substring(0,12)}`. -/
def deviceIdentifier (fp : String → String) (req : RlReq) : Identifier :=
  let fingerprint :=
    (fp (String.intercalate "|"
      [req.ip, req.userAgent.getD "", req.acceptLanguage.getD "",
       req.acceptEncoding.getD ""])).take 12
  ⟨"device", req.ip ++ "-" ++ fingerprint⟩

/-- Steps 2-4 of `getIdentifier` (rateLimiter.js lines 27-52): the
fallback classification used when no verified user identity is
available. -/
def fallbackIdentifier (fp : String → String) (req : RlReq) : Identifier :=
  match req.body with
  | some b =>
    if jsTruthyStr b.phoneNumber then ⟨"phone", b.phoneNumber.getD ""⟩
    else if jsTruthyStr b.username then ⟨"username", b.username.getD ""⟩
    else deviceIdentifier fp req
  | none => deviceIdentifier fp req

/-- `getIdentifier` (rateLimiter.js lines 5-53). Returns the identifier
together with the request-context updates `req.tokenVerified` (an
`Option Bool`: `none` = never assigned) and `req.decodedToken`. On a
throwing verification the catch block sets `req.tokenVerified = false`
and falls through to the lower-precedence buckets; a verified token
whose `userId` claim is falsy also falls through, assigning neither
field. -/
def getIdentifier (secret : String) (now : Nat) (fp : String → String)
    (req : RlReq) : Identifier × Option Bool × Option Payload :=
  match req.authToken with
  | some token =>
    match verifyToken secret now token with
    | .ok decoded =>
      if decoded.userId ≠ "" then
        (⟨"user", decoded.userId⟩, some true, some decoded)
      else
        (fallbackIdentifier fp req, none, none)
    | .error _ =>
      (fallbackIdentifier fp req, some false, none)
  | none => (fallbackIdentifier fp req, none, none)

structure Limits where
  windowMs : Nat
  max : Nat
deriving DecidableEq

/-- `getLimits` (rateLimiter.js lines 55-66): `identifier.split(":")[0]`
is the class prefix (it contains no colon); an unknown class falls back
to the device limits. -/
def getLimits (identifier : Identifier) : Limits :=
  if identifier.cls = "user" then ⟨15 * 60 * 1000, 500⟩
  else if identifier.cls = "phone" then ⟨5 * 60 * 1000, 3⟩
  else if identifier.cls = "username" then ⟨15 * 60 * 1000, 5⟩
  else ⟨15 * 60 * 1000, 50⟩

/-- `CACHE_TTL` (rateLimiter.js line 70). -/
def CACHE_TTL : Nat := 60000

structure RlCacheEntry where
  count : Nat
  timestamp : Nat
deriving DecidableEq

/-- The shared-counter and in-process-cache state of the rate limiter.
`redis` maps a (identifier, window) key to its counter (0 = absent);
`redisTtl` records the expiry set by `redis.expire`; `cache` is the
module-level `rateLimitCache` Map. `redisFails` injects a thrown Redis
error (caught by the middleware, which then fails open). The periodic
sweep of the Map only deletes entries whose timestamp is already older
than `CACHE_TTL`, which the lookup would ignore anyway, so it is not
modelled. -/
structure RlState where
  redis : Identifier × Nat → Nat
  redisTtl : Identifier × Nat → Option Nat
  cache : Identifier × Nat → Option RlCacheEntry
  redisFails : Bool

def freshRlState : RlState :=
  ⟨fun _ => 0, fun _ => none, fun _ => none, false⟩

inductive RlOutcome where
  /-- `next()` with `X-RateLimit-Type`/`-Limit`/`-Remaining` headers -/
  | allowed (rlType : String) (limit : Nat) (remaining : Nat)
  /-- HTTP 429 with `{ error, type, limit, retryAfter }` -/
  | rejected (rlType : String) (limit : Nat) (retryAfter : Nat)
  /-- the catch block: `next()` with no headers (fail open) -/
  | allowedFailOpen
deriving DecidableEq

/-- The in-memory-cache lookup of rateLimiter.js lines 83-84: a cached
entry counts as a hit only while `now - cached.timestamp < CACHE_TTL`. -/
def cacheHit (st : RlState) (now : Nat) (key : Identifier × Nat) :
    Option RlCacheEntry :=
  match st.cache key with
  | some e => if now - e.timestamp < CACHE_TTL then some e else none
  | none => none

/-- `rateLimiter` (rateLimiter.js lines 72-161). On a cache hit the limit
is checked against the cached count before incrementing it, and Redis is
not touched; on a miss `redis.incr` is the atomic step (its failure is
caught and the middleware fails open), `redis.expire` arms the key on its
first increment, and the in-memory cache is reseeded before the limit
check, so the counters advance even on a rejected request. -/
def rateLimiter (secret : String) (fp : String → String) (req : RlReq)
    (st : RlState) (now : Nat) : RlOutcome × RlState :=
  let identifier := (getIdentifier secret now fp req).1
  let limits := getLimits identifier
  let window := now / limits.windowMs
  let key := (identifier, window)
  match cacheHit st now key with
  | some cached =>
    if cached.count ≥ limits.max then
      (.rejected identifier.cls limits.max (jsCeilDiv limits.windowMs 1000), st)
    else
      let entry2 : RlCacheEntry := ⟨cached.count + 1, cached.timestamp⟩
      (.allowed identifier.cls limits.max (limits.max - entry2.count),
       { st with cache := fun k => if k = key then some entry2 else st.cache k })
  | none =>
    if st.redisFails then (.allowedFailOpen, st)
    else
      let current := st.redis key + 1
      let st2 : RlState :=
        { st with
          redis := fun k => if k = key then current else st.redis k
          redisTtl := fun k =>
            if current = 1 ∧ k = key then some (jsCeilDiv limits.windowMs 1000)
            else st.redisTtl k
          cache := fun k => if k = key then some ⟨current, now⟩ else st.cache k }
      if current > limits.max then
        (.rejected identifier.cls limits.max (jsCeilDiv limits.windowMs 1000), st2)
      else
        (.allowed identifier.cls limits.max (limits.max - current), st2)

/-- Run a sequence of (request, arrival-time) pairs through the rate
limiter, collecting the outcomes. -/
def runRateLimiter (secret : String) (fp : String → String) :
    List (RlReq × Nat) → RlState → List RlOutcome × RlState
  | [], st => ([], st)
  | (req, now) :: rest, st =>
    let (outcome, st2) := rateLimiter secret fp req st now
    let (outcomes, st3) := runRateLimiter secret fp rest st2
    (outcome :: outcomes, st3)

/-! ## File-upload rate limiter — src/middleware/rateLimiter.js (second module)

Three simultaneous per-window counters (request count, cumulative file
count, cumulative byte size) keyed by the same (identifier, window)
pair; the window is one hour. A request carries the list of its file
sizes (`req.files`). -/

structure FuReq where
  authToken : Option JwtInput
  ip : String
  userAgent : Option String
  /-- the sizes of `req.files` (`none` = `req.files` undefined) -/
  files : Option (List Nat)

/-- `getFileUploadIdentifier` (rateLimiter.js lines 186-215): an
authenticated user maps to `file_upload:{userId}`; everything else —
absent token, failed verification, falsy `userId` — falls back to
`file_upload_ip:{ip}-{sha256(ip|ua).substring(0,12)}`. Note the catch
block here does not assign `req.tokenVerified`. -/
def getFileUploadIdentifier (secret : String) (now : Nat)
    (fp : String → String) (req : FuReq) : Identifier × Option Bool × Option Payload :=
  let fallback : Identifier :=
    ⟨"file_upload_ip",
     req.ip ++ "-" ++ (fp (String.intercalate "|" [req.ip, req.userAgent.getD ""])).take 12⟩
  match req.authToken with
  | some token =>
    match verifyToken secret now token with
    | .ok decoded =>
      if decoded.userId ≠ "" then
        (⟨"file_upload", decoded.userId⟩, some true, some decoded)
      else
        (fallback, none, none)
    | .error _ => (fallback, none, none)
  | none => (fallback, none, none)

structure FuLimits where
  windowMs : Nat
  max : Nat
  maxFiles : Nat
  maxTotalSize : Nat
deriving DecidableEq

/-- `getFileUploadLimits` (rateLimiter.js lines 217-236). -/
def getFileUploadLimits (identifier : Identifier) : FuLimits :=
  if identifier.cls = "file_upload" then
    ⟨60 * 60 * 1000, 20, 100, 500 * 1024 * 1024⟩
  else
    ⟨60 * 60 * 1000, 5, 20, 50 * 1024 * 1024⟩

structure FuCacheEntry where
  requests : Nat
  files : Nat
  totalSize : Nat
  timestamp : Nat
deriving DecidableEq

/-- State of the file-upload limiter: the three Redis counters (keys
`rate_limit:{identifier}:requests|files|size:{window}`), their TTLs, and
the module-level `fileUploadCache` Map. -/
structure FuState where
  redisRequests : Identifier × Nat → Nat
  redisFiles : Identifier × Nat → Nat
  redisSize : Identifier × Nat → Nat
  redisTtl : Identifier × Nat → Option Nat
  cache : Identifier × Nat → Option FuCacheEntry
  redisFails : Bool

def freshFuState : FuState :=
  ⟨fun _ => 0, fun _ => 0, fun _ => 0, fun _ => none, fun _ => none, false⟩

inductive FuOutcome where
  /-- `next()` with the `X-FileUpload-*` headers -/
  | allowed (requestsRemaining filesRemaining sizeRemaining : Nat)
  /-- HTTP 429 with `{ error, type, limit, retryAfter }` -/
  | rejected (fuType : String) (limit : Nat) (retryAfter : Nat)
  /-- the catch block: fail open -/
  | allowedFailOpen
deriving DecidableEq

/-- The `fileUploadCache` lookup (rateLimiter.js lines 264-265). -/
def fuCacheHit (st : FuState) (now : Nat) (key : Identifier × Nat) :
    Option FuCacheEntry :=
  match st.cache key with
  | some e => if now - e.timestamp < CACHE_TTL then some e else none
  | none => none

/-- `fileUploadRateLimiter` (rateLimiter.js lines 242-419). On a cache
hit the three limits are checked in the order requests, files, size
against the cached counters (requests pre-increment, files and size with
the current request added) and the first exceeded one produces the
rejection; on a miss the three Redis counters are incremented first and
the same ordered checks run on the post-increment values. -/
def fileUploadRateLimiter (secret : String) (fp : String → String)
    (req : FuReq) (st : FuState) (now : Nat) : FuOutcome × FuState :=
  let identifier := (getFileUploadIdentifier secret now fp req).1
  let limits := getFileUploadLimits identifier
  let window := now / limits.windowMs
  let key := (identifier, window)
  let currentFiles := (req.files.getD []).length
  let currentSize := (req.files.getD []).foldl (· + ·) 0
  match fuCacheHit st now key with
  | some cached =>
    if cached.requests ≥ limits.max then
      (.rejected "file_upload_requests" limits.max (jsCeilDiv limits.windowMs 1000), st)
    else if cached.files + currentFiles > limits.maxFiles then
      (.rejected "file_upload_files" limits.maxFiles (jsCeilDiv limits.windowMs 1000), st)
    else if cached.totalSize + currentSize > limits.maxTotalSize then
      (.rejected "file_upload_size" limits.maxTotalSize (jsCeilDiv limits.windowMs 1000), st)
    else
      let entry2 : FuCacheEntry :=
        ⟨cached.requests + 1, cached.files + currentFiles,
         cached.totalSize + currentSize, cached.timestamp⟩
      (.allowed (limits.max - entry2.requests) (limits.maxFiles - entry2.files)
         (limits.maxTotalSize - entry2.totalSize),
       { st with cache := fun k => if k = key then some entry2 else st.cache k })
  | none =>
    if st.redisFails then (.allowedFailOpen, st)
    else
      let currentRequests := st.redisRequests key + 1
      let currentFilesCount := st.redisFiles key + currentFiles
      let currentTotalSize := st.redisSize key + currentSize
      let st2 : FuState :=
        { st with
          redisRequests := fun k => if k = key then currentRequests else st.redisRequests k
          redisFiles := fun k => if k = key then currentFilesCount else st.redisFiles k
          redisSize := fun k => if k = key then currentTotalSize else st.redisSize k
          redisTtl := fun k =>
            if currentRequests = 1 ∧ k = key then some (jsCeilDiv limits.windowMs 1000)
            else st.redisTtl k
          cache := fun k =>
            if k = key then some ⟨currentRequests, currentFilesCount, currentTotalSize, now⟩
            else st.cache k }
      if currentRequests > limits.max then
        (.rejected "file_upload_requests" limits.max (jsCeilDiv limits.windowMs 1000), st2)
      else if currentFilesCount > limits.maxFiles then
        (.rejected "file_upload_files" limits.maxFiles (jsCeilDiv limits.windowMs 1000), st2)
      else if currentTotalSize > limits.maxTotalSize then
        (.rejected "file_upload_size" limits.maxTotalSize (jsCeilDiv limits.windowMs 1000), st2)
      else
        (.allowed (limits.max - currentRequests) (limits.maxFiles - currentFilesCount)
           (limits.maxTotalSize - currentTotalSize), st2)

/-! ## Auth middleware — src/middleware/auth.js (first variant)

The first `authenticateToken` of auth.js: it resolves the claims (fast
path via the rate-limiter flags, else independent verification), requires
a truthy `orgId` claim, then resolves a principal cache-first. The value
cached under `user_auth:{userId}` is the serialized
`{ user: {id, role, is_active}, orgs: [...] }` object (auth.js lines
77-88), while the cache-hit check reads the top-level property
`userData.is_active` (line 41) — that key is absent from the cached
object, so the JSON round-trip yields `undefined` there. -/

structure OrgOut where
  org_id : String
  org_name : String
  role : String
  full_name : String
deriving DecidableEq

structure CachedUser where
  id : String
  role : String
  is_active : Bool
deriving DecidableEq

structure CachedUserData where
  user : CachedUser
  orgs : List OrgOut
deriving DecidableEq

/-- JS property access `userData.is_active` on the parsed cached object:
the object serialized at auth.js line 88 has exactly the keys `user` and
`orgs`, so the top-level `is_active` property is `undefined`. -/
def CachedUserData.topIsActive (_ : CachedUserData) : Option Bool := none

/-- A row of the `users` table as selected by auth.js lines 53-62,
with the joined organization name. -/
structure UserRow where
  id : String
  role : String
  is_active : Bool
  org_id : String
  full_name : String
  org_name : String
deriving DecidableEq

structure UsersDb where
  rows : List UserRow
  fails : Bool

structure AuthCache where
  entry : String → Option CachedUserData
  readFails : Bool
  writeFails : Bool

structure AuthReq where
  tokenVerified : Option Bool
  decodedToken : Option Payload
  authToken : Option JwtInput

inductive AuthResult where
  /-- HTTP 401 with `{ error: msg }` -/
  | unauthorized (msg : String)
  /-- `next()` with `req.user` and `req.userOrgs` assigned -/
  | next (user : CachedUser) (orgs : List OrgOut)
deriving DecidableEq

def AuthResult.isNext : AuthResult → Bool
  | .next _ _ => true
  | .unauthorized _ => false

/-- Step 1 of `authenticateToken` (auth.js lines 7-27): reuse the claims
verified by the rate limiter when `req.tokenVerified && req.decodedToken`
is truthy, else verify the header token independently; a missing token is
401 "Access token required" and a throwing verification is caught by the
outer handler as 401 "Invalid token". -/
def resolveClaims (secret : String) (now : Nat) (req : AuthReq) :
    Except String Payload :=
  match req.tokenVerified, req.decodedToken with
  | some true, some d => .ok d
  | _, _ =>
    match req.authToken with
    | none => .error "Access token required"
    | some token =>
      match verifyToken secret now token with
      | .ok d => .ok d
      | .error _ => .error "Invalid token"

/-- The credential-store query of auth.js lines 53-62: all rows of
`users` with the given id and `is_active = true`. -/
def activeRowsFor (db : UsersDb) (userId : String) : List UserRow :=
  db.rows.filter (fun r => r.id == userId && r.is_active)

/-- `authenticateToken` (auth.js lines 5-100, first variant). Cache read
and write errors are caught and skipped; a store error or zero matching
active rows is 401 "Invalid or expired token". -/
def authenticateToken (secret : String) (now : Nat) (req : AuthReq)
    (cache : AuthCache) (db : UsersDb) : AuthResult × AuthCache :=
  match resolveClaims secret now req with
  | .error msg => (.unauthorized msg, cache)
  | .ok decoded =>
    if ¬ jsTruthyStr decoded.orgId then (.unauthorized "Invalid token", cache)
    else
      let hit : Option CachedUserData :=
        if cache.readFails then none else cache.entry decoded.userId
      match hit with
      | some userData =>
        if ¬ jsTruthyBool userData.topIsActive then
          (.unauthorized "Account deactivated", cache)
        else
          (.next userData.user userData.orgs, cache)
      | none =>
        if db.fails then (.unauthorized "Invalid or expired token", cache)
        else
          let userRecords := activeRowsFor db decoded.userId
          match userRecords with
          | [] => (.unauthorized "Invalid or expired token", cache)
          | primary :: _ =>
            let allOrgs := userRecords.map
              (fun r => (⟨r.org_id, r.org_name, r.role, r.full_name⟩ : OrgOut))
            let userData : CachedUserData :=
              ⟨⟨primary.id, primary.role, primary.is_active⟩, allOrgs⟩
            let cache2 :=
              if cache.writeFails then cache
              else { cache with
                     entry := fun k =>
                       if k = decoded.userId then some userData else cache.entry k }
            (.next userData.user userData.orgs, cache2)

/-! ## Parent-child validators

Two variants exist in the repository: the uncached point-query variant
(src/middleware/parentChildValidator.js) and the cached set variant
(src/unnamed/part_013 lines 803-871). -/

/-- A row of `users` as the validators see it. -/
structure PcRow where
  id : String
  parent_id : Option String
  org_id : String
  is_active : Bool
deriving DecidableEq

structure PcDb where
  rows : List PcRow
  fails : Bool

inductive PcResult where
  /-- HTTP 400 -/
  | badRequest (msg : String)
  /-- HTTP 403 -/
  | forbidden (msg : String)
  /-- HTTP 500 -/
  | serverError (msg : String)
  /-- `next()` with `req.validatedChild = { childId, orgId }` -/
  | next (childId : String) (orgId : String)
deriving DecidableEq

def PcResult.isNext : PcResult → Bool
  | .next _ _ => true
  | _ => false

/-- A JSON body field: a string or some non-string value. -/
inductive JsVal where
  | str (s : String)
  | nonString
deriving DecidableEq

/-- The UUID shape required by part_013 lines 814-818:
`/^[0-9a-f]{8}-[0-9a-f]{4}-[1-5][0-9a-f]{3}-[89ab][0-9a-f]{3}-[0-9a-f]{12}$/i`. -/
def isHexChar (c : Char) : Bool :=
  c.isDigit || ('a' ≤ c && c ≤ 'f') || ('A' ≤ c && c ≤ 'F')

def isUuid (s : String) : Bool :=
  let l := s.data
  l.length == 36 &&
  (List.range 36).all (fun i =>
    let c := l.getD i ' '
    if i == 8 || i == 13 || i == 18 || i == 23 then c == '-'
    else if i == 14 then '1' ≤ c && c ≤ '5'
    else if i == 19 then
      c == '8' || c == '9' || c == 'a' || c == 'b' || c == 'A' || c == 'B'
    else isHexChar c)

/-- The uncached validator request: `const { childId } = req.body || req.query;`
takes the body when it is defined, else the query. -/
structure PcAReq where
  body : Option (Option String)
  query : Option String
  /-- `req.user.id` as set by the auth middleware -/
  user_id : String

/-- `parentChildValidator` (src/middleware/parentChildValidator.js lines
3-47, uncached variant). A falsy `childId` is 400; the point query
`users` where `id = childId` and `parent_id = parentId` with `.single()`
succeeds exactly on one matching row (no `is_active` filter!); a query
error — including a store failure — lands in the same
`childError || !childData` test and is 403. The second component records
whether the credential store was queried. -/
def parentChildValidator (req : PcAReq) (db : PcDb) : PcResult × Bool :=
  let childId : Option String :=
    match req.body with
    | some b => b
    | none => req.query
  match childId with
  | none => (.badRequest "Child ID is required", false)
  | some c =>
    if c = "" then (.badRequest "Child ID is required", false)
    else if db.fails then (.forbidden "Invalid child ID or access denied", true)
    else
      match db.rows.filter (fun r => r.id == c && r.parent_id == some req.user_id) with
      | [r] => (.next r.id r.org_id, true)
      | _ => (.forbidden "Invalid child ID or access denied", true)

/-- The cached validator request: `childId` comes from `req.body` only;
`req.user.id` and `req.user.org_id` identify the parent principal. -/
structure PcBReq where
  body : Option (Option JsVal)
  user_id : String
  user_org : String

/-- The `parent_children:{parentId}:{orgId}` Redis sets and the failure
flags of the cache layer. -/
structure PcState where
  members : String × String → List String
  readFails : Bool
  writeFails : Bool

/-- The set of child ids the cached validator resolves for a parent and
organization: the cached set when the read succeeds and is nonempty, else
the active children of the parent in that organization per the credential
store (part_013 lines 823-847). -/
def resolvedChildIds (st : PcState) (db : PcDb) (parentId orgId : String) :
    List String :=
  let cached := if st.readFails then [] else st.members (parentId, orgId)
  if cached.isEmpty then
    (db.rows.filter
      (fun r => r.parent_id == some parentId && r.org_id == orgId && r.is_active)).map
      (fun r => r.id)
  else cached

/-- `parentChildValidator` (src/unnamed/part_013 lines 803-871, cached
variant; named `parentChildValidatorCached` here to keep the two variants
apart). A missing body makes the destructuring throw, caught as 500. A
missing, non-string or empty `childId` is 400 "Valid child ID is
required"; a string that fails the UUID regex is 400 "Invalid child ID
format" — both before any store access. The Redis `smembers` error is
caught and treated as an empty set; on an empty set the store is queried
(a store error is a hard 500) and a nonempty result is `sadd`-ed back
(write errors swallowed). Finally `childrenIds.includes(childId)` decides
between `next` (with the parent-side `orgId`) and 403. The middle
component records whether the credential store was queried. -/
def parentChildValidatorCached (req : PcBReq) (st : PcState) (db : PcDb) :
    PcResult × Bool × PcState :=
  match req.body with
  | none => (.serverError "Service temporarily unavailable", false, st)
  | some bodyChildId =>
    match bodyChildId with
    | none => (.badRequest "Valid child ID is required", false, st)
    | some .nonString => (.badRequest "Valid child ID is required", false, st)
    | some (.str c) =>
      if c = "" then (.badRequest "Valid child ID is required", false, st)
      else if ¬ isUuid c then (.badRequest "Invalid child ID format", false, st)
      else
        let key := (req.user_id, req.user_org)
        let childrenIds := if st.readFails then [] else st.members key
        if childrenIds.isEmpty then
          if db.fails then (.serverError "Service temporarily unavailable", true, st)
          else
            let ids := (db.rows.filter
              (fun r => r.parent_id == some req.user_id
                && r.org_id == req.user_org && r.is_active)).map (fun r => r.id)
            let st2 : PcState :=
              if ids.isEmpty ∨ st.writeFails then st
              else { st with
                     members := fun k =>
                       if k = key then st.members k ++ ids else st.members k }
            if ids.contains c then (.next c req.user_org, true, st2)
            else (.forbidden "Access denied", true, st2)
        else
          if childrenIds.contains c then (.next c req.user_org, false, st)
          else (.forbidden "Access denied", false, st)

/-! ## Theorems -/

/-- C6: for every subjectId and organizationId pair,
`verify(sign(subjectId, orgId))` returns exactly `{subjectId, orgId}`;
verifying a token signed under a different secret always fails; and
verifying a string that is not a valid token always fails with a caught
error rather than an unhandled exception. -/
theorem token_roundtrip_and_rejection (secret : String) (now : Nat)
    (subjectId orgId : String) :
    verifyToken secret now (generateToken secret (issuedPayload subjectId orgId))
      = .ok (issuedPayload subjectId orgId)
    ∧ (∀ secret2 : String, secret2 ≠ secret →
        verifyToken secret2 now (generateToken secret (issuedPayload subjectId orgId))
          = .error .badSignature)
    ∧ (∀ raw : String,
        verifyToken secret now (.malformed raw) = .error .notWellFormed) := by
  refine ⟨?_, ?_, ?_⟩
  · simp [verifyToken, generateToken, issuedPayload, hmacSign]
  · intro secret2 hne
    simp [verifyToken, generateToken, issuedPayload, hmacSign, MacTag.mk.injEq,
      Ne.symm hne]
  · intro raw
    rfl

/-- Witness for C6 at concrete inputs. -/
theorem token_roundtrip_and_rejection_witness :
    verifyToken "k1" 0 (generateToken "k1" (issuedPayload "u1" "o1"))
      = .ok (issuedPayload "u1" "o1")
    ∧ verifyToken "k2" 0 (generateToken "k1" (issuedPayload "u1" "o1"))
      = .error .badSignature
    ∧ verifyToken "k1" 0 (.malformed "not-a-token") = .error .notWellFormed :=
  ⟨(token_roundtrip_and_rejection "k1" 0 "u1" "o1").1,
   (token_roundtrip_and_rejection "k1" 0 "u1" "o1").2.1 "k2" (by decide),
   (token_roundtrip_and_rejection "k1" 0 "u1" "o1").2.2 "not-a-token"⟩

/-- C10: the codec signs without any expiry claim (no `expiresIn` is
passed and no issued payload carries `exp`), so a token produced by
`generateToken` verifies successfully at every later time — the
expired-token rejection branch of `verifyToken` is unreachable for
self-issued tokens. -/
theorem issued_tokens_never_expire (secret : String) (p : Payload)
    (hexp : p.exp = none) (now : Nat) :
    verifyToken secret now (generateToken secret p) = .ok p := by
  simp [verifyToken, generateToken, hmacSign, hexp]

/-- Witness for C10: the payloads the login routes sign verify at an
arbitrarily late clock value. -/
theorem issued_tokens_never_expire_witness :
    verifyToken "k1" 99999999999 (generateToken "k1" (issuedPayload "u1" "o1"))
      = .ok (issuedPayload "u1" "o1") :=
  issued_tokens_never_expire "k1" (issuedPayload "u1" "o1") rfl 99999999999

/-- C2: for a phone with a live OTP `code` and attempt counter `a`:
a non-matching candidate increments the counter to `a + 1` (re-armed with
the fixed 100 second TTL) and reports `3 - (a + 1)` attempts remaining
while the code stays live; the 3rd cumulative mismatch (`a = 2`) deletes
both the OTP and its counter and reports permanent invalidation; a
matching candidate deletes both and reports success; and on any state
whose OTP record is gone (the post-state of either terminal outcome)
every verify returns the not-found error — each code is single-use. -/
theorem otp_verify_state_machine (p cand code : String) (ttlC a : Nat)
    (st : OtpStore)
    (hotp : st.otp p = some (code, ttlC))
    (hatt : ((st.attempts p).map Prod.fst).getD 0 = a) :
    (a + 1 < 3 → code ≠ cand →
      (verifyOTP p cand st).1 = .mismatch (3 - (a + 1))
      ∧ ((verifyOTP p cand st).2).attempts p = some (a + 1, 100)
      ∧ ((verifyOTP p cand st).2).otp p = some (code, ttlC))
    ∧ (a = 2 → code ≠ cand →
      (verifyOTP p cand st).1 = .exhausted
      ∧ ((verifyOTP p cand st).2).otp p = none
      ∧ ((verifyOTP p cand st).2).attempts p = none)
    ∧ (a < 3 → cand = code →
      (verifyOTP p cand st).1 = .ok
      ∧ ((verifyOTP p cand st).2).otp p = none
      ∧ ((verifyOTP p cand st).2).attempts p = none)
    ∧ (∀ st2 : OtpStore, st2.otp p = none → ∀ cand2,
        verifyOTP p cand2 st2 = (.notFound, st2)) := by
  refine ⟨?_, ?_, ?_, ?_⟩
  · intro hlt hne
    have h3 : ¬ 3 ≤ a := by omega
    have hr : ¬ (2 - a = 0) := by omega
    simp [verifyOTP, hotp, hatt, h3, hne, hr]
  · intro ha2 hne
    subst ha2
    simp [verifyOTP, hotp, hatt, hne, deleteOTP]
  · intro hlt heq
    subst heq
    have h3 : ¬ 3 ≤ a := by omega
    simp [verifyOTP, hotp, hatt, h3, deleteOTP]
  · intro st2 hnone cand2
    simp [verifyOTP, hnone]

/-- A live OTP `123456` for phone `9876543210`, attempts 0. -/
def otpW1 : OtpStore := storeOTP "9876543210" "123456" emptyOtpStore

/-- The same store with the attempt counter already at 2. -/
def otpW3 : OtpStore :=
  { otpW1 with
    attempts := fun p => if p = "9876543210" then some (2, 100) else none }

/-- The store after the terminal outcomes: both records deleted. -/
def otpPost : OtpStore := deleteOTP "9876543210" otpW1

/-- Witness for C2: the concrete scenario of the spec — the first wrong
code reports 2 attempts remaining and re-arms the counter; the wrong code
on attempt counter 2 invalidates; the right code succeeds; any verify
after deletion is not-found. -/
theorem otp_verify_state_machine_witness :
    ((verifyOTP "9876543210" "000000" otpW1).1 = .mismatch 2
      ∧ ((verifyOTP "9876543210" "000000" otpW1).2).attempts "9876543210"
          = some (1, 100))
    ∧ ((verifyOTP "9876543210" "000000" otpW3).1 = .exhausted
      ∧ ((verifyOTP "9876543210" "000000" otpW3).2).otp "9876543210" = none)
    ∧ (verifyOTP "9876543210" "123456" otpW1).1 = .ok
    ∧ verifyOTP "9876543210" "000000" otpPost = (.notFound, otpPost) := by
  have T1 := otp_verify_state_machine "9876543210" "000000" "123456" 100 0 otpW1
    rfl rfl
  have T3 := otp_verify_state_machine "9876543210" "000000" "123456" 100 2 otpW3
    rfl rfl
  have T1b := otp_verify_state_machine "9876543210" "123456" "123456" 100 0 otpW1
    rfl rfl
  have h1 := T1.1 (by decide) (by decide)
  have h3 := T3.2.1 rfl (by decide)
  exact ⟨⟨h1.1, h1.2.1⟩, ⟨h3.1, h3.2.1⟩,
    (T1b.2.2.1 (by decide) rfl).1, T1.2.2.2 otpPost rfl "000000"⟩

/-- C9 counterexample: `"000000"` is not a possible output of
`generateOTP` — the drawn number is `Math.floor(100000 + r * 900000)`,
which is at least 100000, and `toString` does not pad, so no code with a
leading zero can ever be produced (the claim asserts every string from
"000000" to "999999" is possible). -/
theorem generateOTP_no_leading_zero_codes :
    ¬ ∃ r : ℚ, 0 ≤ r ∧ r < 1 ∧ generateOTP r = "000000" := by
  rintro ⟨r, h0, _, heq⟩
  have hn : generateOTPNum r ≠ 0 := by
    unfold generateOTPNum
    omega
  unfold generateOTP jsNatToString at heq
  rw [if_neg hn] at heq
  have hdata : ((Nat.digits 10 (generateOTPNum r)).map Nat.digitChar).reverse
      = "000000".data := congrArg String.data heq
  have hz : "000000".data = ['0', '0', '0', '0', '0', '0'] := by decide
  rw [hz] at hdata
  have hmap : (Nat.digits 10 (generateOTPNum r)).map Nat.digitChar
      = ['0', '0', '0', '0', '0', '0'] := by
    have := congrArg List.reverse hdata
    simpa using this
  have hne : Nat.digits 10 (generateOTPNum r) ≠ [] := by
    intro h
    rw [h] at hmap
    simp at hmap
  have hd0 : (Nat.digits 10 (generateOTPNum r)).getLast hne ≠ 0 :=
    Nat.getLast_digit_ne_zero 10 hn
  have hdm : (Nat.digits 10 (generateOTPNum r)).getLast hne
      ∈ Nat.digits 10 (generateOTPNum r) := List.getLast_mem hne
  have hlt : (Nat.digits 10 (generateOTPNum r)).getLast hne < 10 :=
    Nat.digits_lt_base (by norm_num) hdm
  have hch : Nat.digitChar ((Nat.digits 10 (generateOTPNum r)).getLast hne)
      ∈ (Nat.digits 10 (generateOTPNum r)).map Nat.digitChar :=
    List.mem_map_of_mem _ hdm
  rw [hmap] at hch
  have hc0 : Nat.digitChar ((Nat.digits 10 (generateOTPNum r)).getLast hne)
      = '0' := by simpa using hch
  obtain ⟨d, hdval⟩ : ∃ d, (Nat.digits 10 (generateOTPNum r)).getLast hne = d :=
    ⟨_, rfl⟩
  rw [hdval] at hd0 hlt hc0
  interval_cases d <;> first
    | exact hd0 rfl
    | exact absurd hc0 (by decide)

/-- C9 amended: `generateOTP` returns a 6-character numeric string whose
value is uniformly drawn from 100000..999999 (every value in that range
is attained, none outside it; leading-zero codes are impossible), and
`storeOTP` writes the code under the phone-scoped key with the fixed
100-second TTL while resetting the sibling attempt counter to 0 with the
same TTL, leaving other phones untouched. -/
theorem generateOTP_range_and_storeOTP :
    (∀ r : ℚ, 0 ≤ r → r < 1 →
      100000 ≤ generateOTPNum r ∧ generateOTPNum r ≤ 999999
      ∧ (generateOTP r).length = 6
      ∧ ∀ c ∈ (generateOTP r).data, c.isDigit = true)
    ∧ (∀ n : Nat, 100000 ≤ n → n ≤ 999999 →
        ∃ r : ℚ, 0 ≤ r ∧ r < 1 ∧ generateOTPNum r = n)
    ∧ (∀ phone code st,
        (storeOTP phone code st).otp phone = some (code, 100)
        ∧ (storeOTP phone code st).attempts phone = some (0, 100)
        ∧ ∀ q, q ≠ phone →
            (storeOTP phone code st).otp q = st.otp q
            ∧ (storeOTP phone code st).attempts q = st.attempts q) := by
  refine ⟨?_, ?_, ?_⟩
  · intro r h0 h1
    have hx0 : (0 : ℤ) ≤ Int.floor (r * 900000) := by
      apply Int.floor_nonneg.mpr
      positivity
    have hx1 : Int.floor (r * 900000) < 900000 := by
      have : r * 900000 < 900000 := by nlinarith
      exact Int.floor_lt.mpr (by exact_mod_cast this)
    have hlo : 100000 ≤ generateOTPNum r := by unfold generateOTPNum; omega
    have hhi : generateOTPNum r ≤ 999999 := by unfold generateOTPNum; omega
    have hn : generateOTPNum r ≠ 0 := by omega
    have hlog : Nat.log 10 (generateOTPNum r) = 5 :=
      Nat.log_eq_of_pow_le_of_lt_pow (by norm_num; omega) (by norm_num; omega)
    have hlen : (generateOTP r).length = 6 := by
      unfold generateOTP jsNatToString
      rw [if_neg hn]
      show (((Nat.digits 10 (generateOTPNum r)).map Nat.digitChar).reverse).length = 6
      rw [List.length_reverse, List.length_map,
        Nat.digits_len 10 (generateOTPNum r) (by norm_num) hn, hlog]
    refine ⟨hlo, hhi, hlen, ?_⟩
    intro c hc
    unfold generateOTP jsNatToString at hc
    rw [if_neg hn] at hc
    have hc2 : c ∈ (Nat.digits 10 (generateOTPNum r)).map Nat.digitChar := by
      simpa using hc
    obtain ⟨d, hdm, hdc⟩ := List.mem_map.mp hc2
    have hdlt : d < 10 := Nat.digits_lt_base (by norm_num) hdm
    subst hdc
    interval_cases d <;> decide
  · intro n hlo hhi
    refine ⟨((n : ℚ) - 100000) / 900000, ?_, ?_, ?_⟩
    · apply div_nonneg _ (by norm_num)
      have : (100000 : ℚ) ≤ (n : ℚ) := by exact_mod_cast hlo
      linarith
    · rw [div_lt_one (by norm_num)]
      have : (n : ℚ) ≤ 999999 := by exact_mod_cast hhi
      linarith
    · unfold generateOTPNum
      rw [div_mul_cancel₀ _ (by norm_num : (900000 : ℚ) ≠ 0)]
      have hcast : (n : ℚ) - 100000 = ((n : ℤ) - 100000 : ℤ) := by push_cast; ring
      rw [hcast, Int.floor_intCast]
      omega
  · intro phone code st
    refine ⟨by simp [storeOTP], by simp [storeOTP], ?_⟩
    intro q hq
    simp [storeOTP, hq]

/-- Witness for C9 amended: the draw at `r = 1/2` lands in range with a
6-character code, 123456 is attainable, and `storeOTP` arms both keys
with TTL 100 for the example phone. -/
theorem generateOTP_range_and_storeOTP_witness :
    (100000 ≤ generateOTPNum (1 / 2) ∧ generateOTPNum (1 / 2) ≤ 999999
      ∧ (generateOTP (1 / 2)).length = 6)
    ∧ (∃ r : ℚ, 0 ≤ r ∧ r < 1 ∧ generateOTPNum r = 123456)
    ∧ (storeOTP "9876543210" "123456" emptyOtpStore).otp "9876543210"
        = some ("123456", 100)
    ∧ (storeOTP "9876543210" "123456" emptyOtpStore).attempts "9876543210"
        = some (0, 100) := by
  have h := generateOTP_range_and_storeOTP
  have h1 := h.1 (1 / 2) (by norm_num) (by norm_num)
  have h3 := h.2.2 "9876543210" "123456" emptyOtpStore
  exact ⟨⟨h1.1, h1.2.1, h1.2.2.1⟩,
    h.2.1 123456 (by norm_num) (by norm_num), h3.1, h3.2.1⟩

/-- C3: every request is classified into exactly one identity bucket by
strict precedence — a present and successfully verifying token with a
truthy subject claim yields the `user` bucket with the decoded claims
attached (`tokenVerified = true`); a failing verification only sets the
flag to `false` and downgrades to the fallback chain; an absent token
leaves the flag unassigned and uses the fallback chain; the fallback is
`phone` when the body carries a truthy phone number, else `username`
when it carries a truthy username, else the device fingerprint bucket;
and a failing token never changes the rate-limit outcome relative to the
same request without a token. -/
theorem rate_limit_identity_precedence (secret : String) (now : Nat)
    (fp : String → String) (req : RlReq) :
    (∀ t d, req.authToken = some t → verifyToken secret now t = .ok d →
      d.userId ≠ "" →
      getIdentifier secret now fp req = (⟨"user", d.userId⟩, some true, some d))
    ∧ (∀ t e, req.authToken = some t → verifyToken secret now t = .error e →
      getIdentifier secret now fp req = (fallbackIdentifier fp req, some false, none))
    ∧ (req.authToken = none →
      getIdentifier secret now fp req = (fallbackIdentifier fp req, none, none))
    ∧ (∀ b, req.body = some b →
        (∀ n, b.phoneNumber = some n → n ≠ "" →
          fallbackIdentifier fp req = ⟨"phone", n⟩)
        ∧ (jsTruthyStr b.phoneNumber = false →
          ∀ u, b.username = some u → u ≠ "" →
            fallbackIdentifier fp req = ⟨"username", u⟩)
        ∧ (jsTruthyStr b.phoneNumber = false → jsTruthyStr b.username = false →
            fallbackIdentifier fp req = deviceIdentifier fp req))
    ∧ (req.body = none → fallbackIdentifier fp req = deviceIdentifier fp req)
    ∧ (∀ t e, req.authToken = some t → verifyToken secret now t = .error e →
        ∀ st, rateLimiter secret fp req st now
          = rateLimiter secret fp { req with authToken := none } st now) := by
  refine ⟨?_, ?_, ?_, ?_, ?_, ?_⟩
  · intro t d ht hv hu
    simp [getIdentifier, ht, hv, hu]
  · intro t e ht hv
    simp [getIdentifier, ht, hv]
  · intro ht
    simp [getIdentifier, ht]
  · intro b hb
    refine ⟨?_, ?_, ?_⟩
    · intro n hn hne
      simp [fallbackIdentifier, hb, hn, jsTruthyStr, hne]
    · intro hph u hus hne
      simp only [fallbackIdentifier, hb, hph, Bool.false_eq_true, if_false]
      simp [jsTruthyStr, hus, hne]
    · intro hph hus
      simp [fallbackIdentifier, hb, hph, hus]
  · intro hb
    simp [fallbackIdentifier, hb]
  · intro t e ht hv st
    have h1 : getIdentifier secret now fp req
        = (fallbackIdentifier fp req, some false, none) := by
      simp [getIdentifier, ht, hv]
    have h2 : getIdentifier secret now fp { req with authToken := none }
        = (fallbackIdentifier fp { req with authToken := none }, none, none) := by
      simp [getIdentifier]
    have h3 : fallbackIdentifier fp { req with authToken := none }
        = fallbackIdentifier fp req := rfl
    simp [rateLimiter, h1, h2, h3]

/-- A request carrying only the given bearer token. -/
def rlReqTok (tok : JwtInput) : RlReq := ⟨some tok, none, "1.2.3.4", none, none, none⟩

/-- A request with a malformed token and a body phone number. -/
def rlReqPhoneBadTok : RlReq :=
  ⟨some (.malformed "x"), some ⟨some "9876543210", none⟩, "1.2.3.4", none, none, none⟩

/-- A tokenless request whose body carries only a username. -/
def usernameReq (u ip : String) : RlReq := ⟨none, some ⟨none, some u⟩, ip, none, none, none⟩

/-- A tokenless, bodyless request. -/
def rlReqDevice : RlReq := ⟨none, none, "1.2.3.4", some "UA", none, none⟩

/-- Witness for C3: a valid token classifies as `user` with the flag set;
a malformed token downgrades to the `phone` bucket with the flag `false`;
a tokenless username request classifies as `username` with the flag
unassigned; a bare request classifies as the device bucket; and the
malformed-token request rate-limits exactly like its tokenless twin. -/
theorem rate_limit_identity_precedence_witness :
    getIdentifier "k" 0 (fun s => s)
        (rlReqTok (generateToken "k" (issuedPayload "u9" "o1")))
      = (⟨"user", "u9"⟩, some true, some (issuedPayload "u9" "o1"))
    ∧ getIdentifier "k" 0 (fun s => s) rlReqPhoneBadTok
      = (⟨"phone", "9876543210"⟩, some false, none)
    ∧ getIdentifier "k" 0 (fun s => s) (usernameReq "alice" "1.2.3.4")
      = (⟨"username", "alice"⟩, none, none)
    ∧ getIdentifier "k" 0 (fun s => s) rlReqDevice
      = (deviceIdentifier (fun s => s) rlReqDevice, none, none)
    ∧ rateLimiter "k" (fun s => s) rlReqPhoneBadTok freshRlState 0
      = rateLimiter "k" (fun s => s) { rlReqPhoneBadTok with authToken := none }
          freshRlState 0 := by
  have T1 := rate_limit_identity_precedence "k" 0 (fun s => s)
    (rlReqTok (generateToken "k" (issuedPayload "u9" "o1")))
  have T2 := rate_limit_identity_precedence "k" 0 (fun s => s) rlReqPhoneBadTok
  have T3 := rate_limit_identity_precedence "k" 0 (fun s => s)
    (usernameReq "alice" "1.2.3.4")
  have T4 := rate_limit_identity_precedence "k" 0 (fun s => s) rlReqDevice
  refine ⟨?_, ?_, ?_, ?_, ?_⟩
  · exact T1.1 _ _ rfl rfl (by decide)
  · have h := T2.2.1 _ JwtError.notWellFormed rfl rfl
    have h2 := (T2.2.2.2.1 _ rfl).1 "9876543210" rfl (by decide)
    rw [h2] at h
    exact h
  · have h := T3.2.2.1 rfl
    have h2 := (T3.2.2.2.1 _ rfl).2.1 rfl "alice" rfl (by decide)
    rw [h2] at h
    exact h
  · have h := T4.2.2.1 rfl
    have h2 := T4.2.2.2.2.1 rfl
    rw [h2] at h
    exact h
  · exact T2.2.2.2.2.2 _ JwtError.notWellFormed rfl rfl freshRlState

/-- C4 counterexample. First scenario: six requests for username `alice`
at `t = 850000` (inside the 15-minute window `[0, 900000)`): the 6th is
rejected, but its `retryAfter` is the full window length 900 while only
50 seconds remain in the current window — `retryAfter` is
`Math.ceil(windowMs / 1000)`, not the remaining window time. Second
scenario: five requests at `t = 0` and a 6th at `t = 70000` (the same
window, but past the 60-second in-process cache TTL): the 6th is allowed,
because the five cache-hit increments were never written back to the
shared counter — so the 6th request within a window is not always
rejected either. -/
theorem username_rate_limit_counterexample :
    ((runRateLimiter "k" (fun s => s)
        (List.replicate 6 (usernameReq "alice" "9.9.9.9", 850000))
        freshRlState).1
      = [.allowed "username" 5 4, .allowed "username" 5 3,
         .allowed "username" 5 2, .allowed "username" 5 1,
         .allowed "username" 5 0, .rejected "username" 5 900])
    ∧ (900000 - 850000 % 900000) / 1000 = 50
    ∧ (900 : Nat) ≠ 50
    ∧ ((runRateLimiter "k" (fun s => s)
        (List.replicate 5 (usernameReq "alice" "9.9.9.9", 0)
          ++ [(usernameReq "alice" "9.9.9.9", 70000)]) freshRlState).1
      = [.allowed "username" 5 4, .allowed "username" 5 3,
         .allowed "username" 5 2, .allowed "username" 5 1,
         .allowed "username" 5 0, .allowed "username" 5 3]) := by
  refine ⟨by decide, by decide, by decide, by decide⟩

/-- C4 amended: for identity class `username` (limit 5 per 15-minute
window), six requests for the same username arriving at arbitrary times
within one window and within the 60-second local-cache TTL of the first
request (the cache entry keeps the first request's timestamp — hits do
not refresh it) see the first 5 allowed and the 6th rejected with HTTP
429 whose `retryAfter` is the full window length in seconds (900) — not
the remaining window time; a request at any time in the next window is
allowed again. -/
theorem username_rate_limit_window (secret : String) (fp : String → String)
    (u ip : String) (hu : u ≠ "") (t1 t2 t3 t4 t5 t6 t7 : Nat)
    (h2w : t2 / 900000 = t1 / 900000) (h2c : t2 - t1 < 60000)
    (h3w : t3 / 900000 = t1 / 900000) (h3c : t3 - t1 < 60000)
    (h4w : t4 / 900000 = t1 / 900000) (h4c : t4 - t1 < 60000)
    (h5w : t5 / 900000 = t1 / 900000) (h5c : t5 - t1 < 60000)
    (h6w : t6 / 900000 = t1 / 900000) (h6c : t6 - t1 < 60000)
    (h7w : t7 / 900000 = t1 / 900000 + 1) :
    (runRateLimiter secret fp
        [(usernameReq u ip, t1), (usernameReq u ip, t2), (usernameReq u ip, t3),
         (usernameReq u ip, t4), (usernameReq u ip, t5), (usernameReq u ip, t6),
         (usernameReq u ip, t7)] freshRlState).1
      = [.allowed "username" 5 4, .allowed "username" 5 3,
         .allowed "username" 5 2, .allowed "username" 5 1,
         .allowed "username" 5 0, .rejected "username" 5 900,
         .allowed "username" 5 4] := by
  have hne : ¬ (t1 / 900000 + 1 = t1 / 900000) := Nat.succ_ne_self _
  simp [runRateLimiter, rateLimiter, getIdentifier, fallbackIdentifier,
    jsTruthyStr, hu, usernameReq, getLimits, cacheHit, CACHE_TTL, jsCeilDiv,
    freshRlState, h2w, h2c, h3w, h3c, h4w, h4c, h5w, h5c, h6w, h6c, h7w, hne,
    Prod.ext_iff]

/-- Witness for C4 amended at concrete inputs: the six requests arrive
spread over the first minute of the window (elapsed times 0, 4.9s, 19.9s,
29.9s, 58.9s and 59.95s after the first), the 7th 12.345s into the next
window. -/
theorem username_rate_limit_window_witness :
    (runRateLimiter "k" (fun s => s)
        [(usernameReq "alice" "9.9.9.9", 100),
         (usernameReq "alice" "9.9.9.9", 5000),
         (usernameReq "alice" "9.9.9.9", 20000),
         (usernameReq "alice" "9.9.9.9", 30000),
         (usernameReq "alice" "9.9.9.9", 59000),
         (usernameReq "alice" "9.9.9.9", 60050),
         (usernameReq "alice" "9.9.9.9", 912345)] freshRlState).1
      = [.allowed "username" 5 4, .allowed "username" 5 3,
         .allowed "username" 5 2, .allowed "username" 5 1,
         .allowed "username" 5 0, .rejected "username" 5 900,
         .allowed "username" 5 4] :=
  username_rate_limit_window "k" (fun s => s) "alice" "9.9.9.9" (by decide)
    100 5000 20000 30000 59000 60050 912345
    (by decide) (by decide) (by decide) (by decide) (by decide) (by decide)
    (by decide) (by decide) (by decide) (by decide) (by decide)

/-- C5: a file-upload request is admitted only when all three per-window
quotas pass (request count, cumulative file count, cumulative byte size,
with the authenticated 20/100/500MB and unauthenticated 5/20/50MB hourly
limits encoded in `getFileUploadLimits`); when rejected, the reported
type is that of the first exceeded dimension in the order requests,
files, size — on both the shared-counter path (post-increment values)
and the local-cache path (request count checked pre-increment). -/
theorem file_upload_three_quota_enforcement (secret : String)
    (fp : String → String) (req : FuReq) (st : FuState) (now : Nat)
    (identifier : Identifier) (L : FuLimits) (cf cs r f s : Nat)
    (hre : st.redisFails = false)
    (hid : (getFileUploadIdentifier secret now fp req).1 = identifier)
    (hL : getFileUploadLimits identifier = L)
    (hcf : (req.files.getD []).length = cf)
    (hcs : (req.files.getD []).foldl (· + ·) 0 = cs)
    (hr : st.redisRequests (identifier, now / L.windowMs) + 1 = r)
    (hf : st.redisFiles (identifier, now / L.windowMs) + cf = f)
    (hs : st.redisSize (identifier, now / L.windowMs) + cs = s) :
    (fuCacheHit st now (identifier, now / L.windowMs) = none →
      ((fileUploadRateLimiter secret fp req st now).1
          = .allowed (L.max - r) (L.maxFiles - f) (L.maxTotalSize - s)
        ↔ r ≤ L.max ∧ f ≤ L.maxFiles ∧ s ≤ L.maxTotalSize)
      ∧ (r > L.max → (fileUploadRateLimiter secret fp req st now).1
          = .rejected "file_upload_requests" L.max (jsCeilDiv L.windowMs 1000))
      ∧ (r ≤ L.max → f > L.maxFiles →
          (fileUploadRateLimiter secret fp req st now).1
            = .rejected "file_upload_files" L.maxFiles (jsCeilDiv L.windowMs 1000))
      ∧ (r ≤ L.max → f ≤ L.maxFiles → s > L.maxTotalSize →
          (fileUploadRateLimiter secret fp req st now).1
            = .rejected "file_upload_size" L.maxTotalSize (jsCeilDiv L.windowMs 1000)))
    ∧ (∀ cached, fuCacheHit st now (identifier, now / L.windowMs) = some cached →
      ((fileUploadRateLimiter secret fp req st now).1
          = .allowed (L.max - (cached.requests + 1))
              (L.maxFiles - (cached.files + cf))
              (L.maxTotalSize - (cached.totalSize + cs))
        ↔ cached.requests < L.max ∧ cached.files + cf ≤ L.maxFiles
            ∧ cached.totalSize + cs ≤ L.maxTotalSize)
      ∧ (cached.requests ≥ L.max → (fileUploadRateLimiter secret fp req st now).1
          = .rejected "file_upload_requests" L.max (jsCeilDiv L.windowMs 1000))
      ∧ (cached.requests < L.max → cached.files + cf > L.maxFiles →
          (fileUploadRateLimiter secret fp req st now).1
            = .rejected "file_upload_files" L.maxFiles (jsCeilDiv L.windowMs 1000))
      ∧ (cached.requests < L.max → cached.files + cf ≤ L.maxFiles →
          cached.totalSize + cs > L.maxTotalSize →
          (fileUploadRateLimiter secret fp req st now).1
            = .rejected "file_upload_size" L.maxTotalSize (jsCeilDiv L.windowMs 1000))) := by
  constructor
  · intro hmiss
    simp only [fileUploadRateLimiter, hid, hL, hcf, hcs, hmiss, hre, hr, hf, hs,
      Bool.false_eq_true, if_false, apply_ite Prod.fst]
    refine ⟨?_, ?_, ?_, ?_⟩
    · constructor
      · intro heq
        by_cases h1 : r > L.max
        · rw [if_pos h1] at heq
          exact absurd heq (by simp)
        · rw [if_neg h1] at heq
          by_cases h2 : f > L.maxFiles
          · rw [if_pos h2] at heq
            exact absurd heq (by simp)
          · rw [if_neg h2] at heq
            by_cases h3 : s > L.maxTotalSize
            · rw [if_pos h3] at heq
              exact absurd heq (by simp)
            · exact ⟨by omega, by omega, by omega⟩
      · rintro ⟨h1, h2, h3⟩
        rw [if_neg (by omega), if_neg (by omega), if_neg (by omega)]
    · intro h1
      rw [if_pos h1]
    · intro h1 h2
      rw [if_neg (by omega), if_pos h2]
    · intro h1 h2 h3
      rw [if_neg (by omega), if_neg (by omega), if_pos h3]
  · intro cached hhit
    simp only [fileUploadRateLimiter, hid, hL, hcf, hcs, hhit, hre, hr, hf, hs,
      apply_ite Prod.fst]
    refine ⟨?_, ?_, ?_, ?_⟩
    · constructor
      · intro heq
        by_cases h1 : cached.requests ≥ L.max
        · rw [if_pos h1] at heq
          exact absurd heq (by simp)
        · rw [if_neg h1] at heq
          by_cases h2 : cached.files + cf > L.maxFiles
          · rw [if_pos h2] at heq
            exact absurd heq (by simp)
          · rw [if_neg h2] at heq
            by_cases h3 : cached.totalSize + cs > L.maxTotalSize
            · rw [if_pos h3] at heq
              exact absurd heq (by simp)
            · exact ⟨by omega, by omega, by omega⟩
      · rintro ⟨h1, h2, h3⟩
        rw [if_neg (by omega), if_neg (by omega), if_neg (by omega)]
    · intro h1
      rw [if_pos h1]
    · intro h1 h2
      rw [if_neg (by omega), if_pos h2]
    · intro h1 h2 h3
      rw [if_neg (by omega), if_neg (by omega), if_pos h3]

/-- A single authenticated upload request totaling 600MB (629145600
bytes) in one file. -/
def fuReq600 : FuReq :=
  ⟨some (generateToken "k" (issuedPayload "u1" "o1")), "1.2.3.4", none,
   some [629145600]⟩

/-- Witness for C5: the concrete scenario of the spec — a single 600MB
upload by an authenticated user against fresh counters is rejected with
type `file_upload_size` even though the request-count and file-count
quotas are not exceeded (1 ≤ 20 requests and 1 ≤ 100 files). -/
theorem file_upload_three_quota_enforcement_witness :
    (fileUploadRateLimiter "k" (fun x => x) fuReq600 freshFuState 0).1
      = .rejected "file_upload_size" (500 * 1024 * 1024) 3600
    ∧ (1 ≤ 20 ∧ 1 ≤ 100) ∧ 629145600 > 500 * 1024 * 1024 := by
  have T := file_upload_three_quota_enforcement "k" (fun x => x) fuReq600
    freshFuState 0 ⟨"file_upload", "u1"⟩ ⟨3600000, 20, 100, 500 * 1024 * 1024⟩
    1 629145600 1 1 629145600 rfl rfl rfl rfl rfl rfl rfl rfl
  exact ⟨(T.1 rfl).2.2.2 (by decide) (by decide) (by decide),
    ⟨by decide, by decide⟩, by decide⟩

/-- C7: for a request whose claims resolve to subject `s`, when `s` has
no matching active account — whether because no row with that id exists
(`db1`) or because every row with that id is deactivated (`db2`) —
authentication fails with a 401 response, and the two runs produce
identical results for every shared-cache state: the two failure causes
are indistinguishable to the caller. -/
theorem auth_enumeration_indistinguishable (secret : String) (now : Nat)
    (req : AuthReq) (cache : AuthCache) (db1 db2 : UsersDb) (s : String)
    (d : Payload)
    (hd : resolveClaims secret now req = .ok d) (hs : d.userId = s)
    (h1f : db1.fails = false) (h2f : db2.fails = false)
    (h1 : ∀ rrow ∈ db1.rows, rrow.id ≠ s)
    (h2 : ∀ rrow ∈ db2.rows, rrow.id = s → rrow.is_active = false) :
    authenticateToken secret now req cache db1
      = authenticateToken secret now req cache db2
    ∧ ∃ msg, (authenticateToken secret now req cache db1).1
        = .unauthorized msg := by
  subst hs
  have hf1 : activeRowsFor db1 d.userId = [] := by
    refine List.filter_eq_nil_iff.mpr ?_
    intro a ha
    simp only [Bool.and_eq_true, beq_iff_eq, not_and]
    intro hid _
    exact h1 a ha hid
  have hf2 : activeRowsFor db2 d.userId = [] := by
    refine List.filter_eq_nil_iff.mpr ?_
    intro a ha
    simp only [Bool.and_eq_true, beq_iff_eq, not_and]
    intro hid hact
    rw [h2 a ha hid] at hact
    exact absurd hact (by simp)
  by_cases horg : jsTruthyStr d.orgId = true
  · cases hhit : (if cache.readFails then none else cache.entry d.userId) with
    | some u =>
      refine ⟨?_, "Account deactivated", ?_⟩ <;>
        simp [authenticateToken, hd, horg, hhit, CachedUserData.topIsActive,
          jsTruthyBool]
    | none =>
      refine ⟨?_, "Invalid or expired token", ?_⟩ <;>
        simp [authenticateToken, hd, horg, hhit, h1f, h2f, hf1, hf2]
  · refine ⟨?_, "Invalid token", ?_⟩ <;>
      simp [authenticateToken, hd, horg]

/-- The request context after the rate limiter verified the token for
subject `u1` in organization `o1`. -/
def authReqW : AuthReq := ⟨some true, some ⟨"u1", some "o1", none⟩, none⟩

def authCacheEmpty : AuthCache := ⟨fun _ => none, false, false⟩

/-- A credential store with no row for `u1`. -/
def authDbNoUser : UsersDb := ⟨[], false⟩

/-- A credential store where `u1` exists but is deactivated. -/
def authDbDeactivated : UsersDb :=
  ⟨[⟨"u1", "student", false, "o1", "Kid One", "Org One"⟩], false⟩

/-- Witness for C7 at concrete inputs: the nonexistent-account run and
the deactivated-account run are equal, and both are 401. -/
theorem auth_enumeration_indistinguishable_witness :
    authenticateToken "k" 0 authReqW authCacheEmpty authDbNoUser
      = authenticateToken "k" 0 authReqW authCacheEmpty authDbDeactivated
    ∧ ∃ msg, (authenticateToken "k" 0 authReqW authCacheEmpty authDbNoUser).1
        = .unauthorized msg :=
  auth_enumeration_indistinguishable "k" 0 authReqW authCacheEmpty
    authDbNoUser authDbDeactivated "u1" ⟨"u1", some "o1", none⟩ rfl rfl rfl rfl
    (by intro r hr; simp [authDbNoUser] at hr)
    (by intro r hr hid; simp [authDbDeactivated] at hr; simp [hr])

/-- C8: shared-cache failures degrade gracefully while credential-store
failures are hard failures — (a) the rate limiter fails open (the request
is allowed) when the shared counter is unreachable; (b) the identity
resolver swallows a cache read failure and resolves against the
credential store as ground truth (the request succeeds exactly when the
store has a matching active row); (c) a store failure in the identity
resolver fails the request with 401 — no access is granted; (d) a store
failure in the cached parent-child validator is a hard 500 — no access is
granted. -/
theorem cache_fail_open_store_fail_closed :
    (∀ (secret : String) (fp : String → String) (req : RlReq) (st : RlState)
        (now : Nat),
      st.redisFails = true →
      cacheHit st now ((getIdentifier secret now fp req).1,
        now / (getLimits (getIdentifier secret now fp req).1).windowMs) = none →
      rateLimiter secret fp req st now = (.allowedFailOpen, st))
    ∧ (∀ (secret : String) (now : Nat) (req : AuthReq) (cache : AuthCache)
        (db : UsersDb) (d : Payload),
      resolveClaims secret now req = .ok d → jsTruthyStr d.orgId = true →
      cache.readFails = true → db.fails = false →
      (((authenticateToken secret now req cache db).1).isNext = true
        ↔ activeRowsFor db d.userId ≠ []))
    ∧ (∀ (secret : String) (now : Nat) (req : AuthReq) (cache : AuthCache)
        (db : UsersDb) (d : Payload),
      resolveClaims secret now req = .ok d → jsTruthyStr d.orgId = true →
      (if cache.readFails then none else cache.entry d.userId) = none →
      db.fails = true →
      authenticateToken secret now req cache db
        = (.unauthorized "Invalid or expired token", cache))
    ∧ (∀ (req : PcBReq) (st : PcState) (db : PcDb) (c : String),
      req.body = some (some (.str c)) → c ≠ "" → isUuid c = true →
      (if st.readFails then [] else st.members (req.user_id, req.user_org)) = [] →
      db.fails = true →
      parentChildValidatorCached req st db
        = (.serverError "Service temporarily unavailable", true, st)) := by
  refine ⟨?_, ?_, ?_, ?_⟩
  · intro secret fp req st now hfail hmiss
    simp [rateLimiter, hmiss, hfail]
  · intro secret now req cache db d hd horg hrf hdbf
    have hhit : (if cache.readFails then none
        else cache.entry d.userId) = (none : Option CachedUserData) := by
      simp [hrf]
    cases hrows : activeRowsFor db d.userId with
    | nil =>
      simp [authenticateToken, hd, horg, hhit, hdbf, hrows, AuthResult.isNext]
    | cons a l =>
      simp [authenticateToken, hd, horg, hhit, hdbf, hrows, AuthResult.isNext]
  · intro secret now req cache db d hd horg hhit hdbf
    simp [authenticateToken, hd, horg, hhit, hdbf]
  · intro req st db c hbody hne huuid hmembers hdbf
    simp [parentChildValidatorCached, hbody, hne, huuid, hmembers, hdbf]

def failingRlState : RlState := ⟨fun _ => 0, fun _ => none, fun _ => none, true⟩

def authCacheReadFail : AuthCache := ⟨fun _ => none, true, false⟩

/-- A credential store with an active row for `u1`. -/
def authDbActive : UsersDb :=
  ⟨[⟨"u1", "student", true, "o1", "Kid One", "Org One"⟩], false⟩

def authDbDown : UsersDb := ⟨[], true⟩

def pcStateEmpty : PcState := ⟨fun _ => [], false, false⟩

def pcDbDown : PcDb := ⟨[], true⟩

/-- A cached-validator request with a well-formed UUID child id. -/
def pcReqW : PcBReq :=
  ⟨some (some (.str "123e4567-e89b-12d3-a456-426614174000")), "p1", "o1"⟩

/-- Witness for C8 at concrete inputs: fail-open on a Redis outage,
fall-through to an active store row on a cache read failure, 401 on a
store outage in the resolver, 500 on a store outage in the validator. -/
theorem cache_fail_open_store_fail_closed_witness :
    rateLimiter "k" (fun x => x) rlReqDevice failingRlState 0
      = (.allowedFailOpen, failingRlState)
    ∧ ((authenticateToken "k" 0 authReqW authCacheReadFail authDbActive).1).isNext
        = true
    ∧ authenticateToken "k" 0 authReqW authCacheEmpty authDbDown
        = (.unauthorized "Invalid or expired token", authCacheEmpty)
    ∧ parentChildValidatorCached pcReqW pcStateEmpty pcDbDown
        = (.serverError "Service temporarily unavailable", true, pcStateEmpty) := by
  have T := cache_fail_open_store_fail_closed
  refine ⟨T.1 "k" (fun x => x) rlReqDevice failingRlState 0 rfl rfl, ?_, ?_, ?_⟩
  · exact (T.2.1 "k" 0 authReqW authCacheReadFail authDbActive
      ⟨"u1", some "o1", none⟩ rfl rfl rfl rfl).mpr (by decide)
  · exact T.2.2.1 "k" 0 authReqW authCacheEmpty authDbDown
      ⟨"u1", some "o1", none⟩ rfl rfl rfl rfl
  · exact T.2.2.2 pcReqW pcStateEmpty pcDbDown
      "123e4567-e89b-12d3-a456-426614174000" rfl (by decide) (by decide) rfl rfl

/-- With unique row ids, the point query of the uncached validator
(`id = c` and `parent_id = pid`, then `.single()`) returns exactly the
matching row. -/
theorem filter_point_query_single (rows : List PcRow) (c pid : String)
    (hnd : (rows.map (fun r => r.id)).Nodup) (r : PcRow) (hr : r ∈ rows)
    (hid : r.id = c) (hp : r.parent_id = some pid) :
    rows.filter (fun x => x.id == c && x.parent_id == some pid) = [r] := by
  induction rows with
  | nil => exact absurd hr (List.not_mem_nil r)
  | cons a l ih =>
    rw [List.map_cons, List.nodup_cons] at hnd
    obtain ⟨hna, hnl⟩ := hnd
    rw [List.filter_cons]
    rcases List.mem_cons.mp hr with heq | hrl
    · have hpa : (a.id == c && a.parent_id == some pid) = true := by
        rw [← heq]
        simp [hid, hp]
      rw [if_pos hpa]
      have hrest : l.filter (fun x => x.id == c && x.parent_id == some pid) = [] := by
        refine List.filter_eq_nil_iff.mpr ?_
        intro x hx
        simp only [Bool.and_eq_true, beq_iff_eq, not_and]
        intro hxc _
        apply hna
        have hxm : x.id ∈ List.map (fun q => q.id) l :=
          List.mem_map_of_mem (fun q => q.id) hx
        rw [heq] at hid
        rw [hxc, ← hid] at hxm
        exact hxm
      rw [hrest, heq]
    · have hac : ¬ ((a.id == c && a.parent_id == some pid) = true) := by
        simp only [Bool.and_eq_true, beq_iff_eq, not_and]
        intro hacid _
        apply hna
        have hrm : r.id ∈ List.map (fun q => q.id) l :=
          List.mem_map_of_mem (fun q => q.id) hrl
        rw [hid, ← hacid] at hrm
        exact hrm
      rw [if_neg hac]
      exact ih hnl hrl

/-- A store holding one deactivated child `c1` of parent `p1` in
organization `o1`. -/
def pcDbInactiveChild : PcDb := ⟨[⟨"c1", some "p1", "o1", false⟩], false⟩

/-- An uncached-validator request by parent `p1` for child `c1`. -/
def pcAReqW : PcAReq := ⟨some (some "c1"), none, "p1"⟩

/-- C1 counterexample: the uncached validator does not filter on the
active flag, so a parent requesting a deactivated child succeeds — the
validation returns `next` with the child ids although the set of active
child ids of `p1` is empty, where the claim requires Forbidden for any
child id outside that set. -/
theorem parent_child_inactive_counterexample :
    parentChildValidator pcAReqW pcDbInactiveChild = (.next "c1" "o1", true)
    ∧ (pcDbInactiveChild.rows.filter
        (fun r => r.parent_id == some "p1" && r.is_active)).map (fun r => r.id)
      = [] := by
  constructor
  · decide
  · decide

/-- C1 amended: in the cached validator a missing, non-string or empty
`childId` — and a string failing the UUID shape — is rejected with the
malformed-input 400 before any credential-store lookup, and otherwise
the request succeeds with the validated child id and the organization id
it was resolved under exactly when `childId` belongs to the resolved
child-id set (the cached set, else the store rows filtered on the active
flag), failing 403 otherwise; in the uncached validator a missing or
empty `childId` is the 400 error before any store lookup, and otherwise
(with unique row ids) the request succeeds with the child row and its
organization id exactly when a row with that id has the parent as its
parent reference — regardless of the active flag — failing 403
otherwise. -/
theorem parent_child_validation_amended :
    (∀ (req : PcBReq) (st : PcState) (db : PcDb), db.fails = false →
      (req.body = some none →
        parentChildValidatorCached req st db
          = (.badRequest "Valid child ID is required", false, st))
      ∧ (req.body = some (some .nonString) →
        parentChildValidatorCached req st db
          = (.badRequest "Valid child ID is required", false, st))
      ∧ (req.body = some (some (.str "")) →
        parentChildValidatorCached req st db
          = (.badRequest "Valid child ID is required", false, st))
      ∧ (∀ c, req.body = some (some (.str c)) → c ≠ "" → isUuid c = false →
        parentChildValidatorCached req st db
          = (.badRequest "Invalid child ID format", false, st))
      ∧ (∀ c, req.body = some (some (.str c)) → c ≠ "" → isUuid c = true →
        (c ∈ resolvedChildIds st db req.user_id req.user_org →
          (parentChildValidatorCached req st db).1 = .next c req.user_org)
        ∧ (c ∉ resolvedChildIds st db req.user_id req.user_org →
          (parentChildValidatorCached req st db).1 = .forbidden "Access denied")))
    ∧ (∀ (req : PcAReq) (db : PcDb), db.fails = false →
      ((match req.body with | some b => b | none => req.query) = none →
        parentChildValidator req db = (.badRequest "Child ID is required", false))
      ∧ ((match req.body with | some b => b | none => req.query) = some "" →
        parentChildValidator req db = (.badRequest "Child ID is required", false))
      ∧ (∀ c, (match req.body with | some b => b | none => req.query) = some c →
          c ≠ "" → (db.rows.map (fun r => r.id)).Nodup →
          (∀ rrow ∈ db.rows, rrow.id = c → rrow.parent_id = some req.user_id →
            parentChildValidator req db = (.next rrow.id rrow.org_id, true))
          ∧ ((∀ rrow ∈ db.rows,
                ¬(rrow.id = c ∧ rrow.parent_id = some req.user_id)) →
            parentChildValidator req db
              = (.forbidden "Invalid child ID or access denied", true)))) := by
  constructor
  · intro req st db hdbf
    refine ⟨?_, ?_, ?_, ?_, ?_⟩
    · intro hb
      simp [parentChildValidatorCached, hb]
    · intro hb
      simp [parentChildValidatorCached, hb]
    · intro hb
      simp [parentChildValidatorCached, hb]
    · intro c hb hne huuid
      simp [parentChildValidatorCached, hb, hne, huuid]
    · intro c hb hne huuid
      cases hemp : (if st.readFails then []
          else st.members (req.user_id, req.user_org)) with
      | nil =>
        have hres : resolvedChildIds st db req.user_id req.user_org
            = (db.rows.filter (fun r => r.parent_id == some req.user_id
                && r.org_id == req.user_org && r.is_active)).map (fun r => r.id) := by
          simp [resolvedChildIds, hemp]
        constructor
        · intro hmem
          rw [hres] at hmem
          simp [parentChildValidatorCached, hb, hne, huuid, hemp, hdbf, hmem]
        · intro hmem
          rw [hres] at hmem
          simp [parentChildValidatorCached, hb, hne, huuid, hemp, hdbf, hmem]
      | cons x xs =>
        have hres : resolvedChildIds st db req.user_id req.user_org = x :: xs := by
          simp [resolvedChildIds, hemp]
        constructor
        · intro hmem
          rw [hres] at hmem
          simp [parentChildValidatorCached, hb, hne, huuid, hemp, hmem]
        · intro hmem
          rw [hres] at hmem
          simp [parentChildValidatorCached, hb, hne, huuid, hemp, hmem]
  · intro req db hdbf
    refine ⟨?_, ?_, ?_⟩
    · intro hb
      simp [parentChildValidator, hb]
    · intro hb
      simp [parentChildValidator, hb]
    · intro c hb hne hnd
      constructor
      · intro rrow hr hid hp
        have hfilter := filter_point_query_single db.rows c req.user_id hnd
          rrow hr hid hp
        simp [parentChildValidator, hb, hne, hdbf, hfilter]
      · intro hnone
        have hfilter : db.rows.filter
            (fun x => x.id == c && x.parent_id == some req.user_id) = [] := by
          refine List.filter_eq_nil_iff.mpr ?_
          intro x hx
          simp only [Bool.and_eq_true, beq_iff_eq, not_and]
          intro h1 h2
          exact hnone x hx ⟨h1, h2⟩
        simp [parentChildValidator, hb, hne, hdbf, hfilter]

/-- The cached-validator state holding the child set {A, B} for parent
`p1` in organization `o1`, with A being the UUID child id of `pcReqW`. -/
def pcStateAB : PcState :=
  ⟨fun k => if k = ("p1", "o1")
    then ["123e4567-e89b-12d3-a456-426614174000",
          "223e4567-e89b-12d3-a456-426614174000"]
    else [], false, false⟩

/-- A cached-validator request for a child id outside the resolved set. -/
def pcReqC : PcBReq :=
  ⟨some (some (.str "323e4567-e89b-12d3-a456-426614174000")), "p1", "o1"⟩

/-- A cached-validator request with a missing child id. -/
def pcReqNoChild : PcBReq := ⟨some none, "p1", "o1"⟩

def pcDbEmptyOk : PcDb := ⟨[], false⟩

/-- Witness for C1 amended: with resolved set {A, B}, validating A
succeeds with the organization id and no store access; validating C (not
a child) is 403; a missing child id is the 400 error with no store
access; and the uncached variant succeeds on the (inactive) child row. -/
theorem parent_child_validation_amended_witness :
    (parentChildValidatorCached pcReqW pcStateAB pcDbEmptyOk).1
      = .next "123e4567-e89b-12d3-a456-426614174000" "o1"
    ∧ (parentChildValidatorCached pcReqC pcStateAB pcDbEmptyOk).1
      = .forbidden "Access denied"
    ∧ parentChildValidatorCached pcReqNoChild pcStateAB pcDbEmptyOk
      = (.badRequest "Valid child ID is required", false, pcStateAB)
    ∧ parentChildValidator pcAReqW pcDbInactiveChild = (.next "c1" "o1", true) := by
  have T := parent_child_validation_amended
  have TB := T.1 pcReqW pcStateAB pcDbEmptyOk rfl
  have TC := T.1 pcReqC pcStateAB pcDbEmptyOk rfl
  have TN := T.1 pcReqNoChild pcStateAB pcDbEmptyOk rfl
  have TA := T.2 pcAReqW pcDbInactiveChild rfl
  refine ⟨?_, ?_, TN.1 rfl, ?_⟩
  · exact (TB.2.2.2.2 _ rfl (by decide) (by decide)).1 (by decide)
  · exact (TC.2.2.2.2 _ rfl (by decide) (by decide)).2 (by decide)
  · exact (TA.2.2 "c1" rfl (by decide) (by decide)).1
      ⟨"c1", some "p1", "o1", false⟩ (by decide) rfl rfl

end Backend
